import Mathlib

/-!
Verification of the reconciliation engine of the `decide` repository.

The Go sources embedded here:
  - `pkg/client/k8s/v1alpha1/unstructured.go`: the unstructured-object
    middleware pipeline (`UnstructuredUpdater`) and the get-then-create-or-update
    apply primitive (`newResourceApplier`, `NewResourceApplier`, together with
    the injected `ResourceGetter` / `ResourceCreator` / `ResourceUpdater`
    primitives).
  - the installer orchestrator (`installErrors`, `simpleInstaller.Install`).

Modelling conventions:
  - Go pointers that may be nil become `Option`; a Go `error` value becomes
    `Option GoError` (with `none` for Go's nil error).
  - The effectful injected primitives (network calls against the remote store)
    become explicit state passing: a primitive over state `σ` takes the state
    and returns it updated.  Instantiating `σ` with a call trace makes
    "this primitive was invoked exactly once" a statement about the final
    trace; instantiating `σ` with a cluster store gives the end-to-end
    behaviour.
  - `metav1.GetOptions` and the variadic `subresources` arguments are
    pass-through data never inspected by the code under verification and are
    elided.
  - Go format-string quoting (the single quotes of `'%s'`) is dropped from
    error-message literals.
-/

namespace DecideRepo

/-- A Go `error` value (the non-nil cases).  `notFound` stands for a
kubernetes status error with reason NotFound, i.e. exactly the errors for
which `apierrors.IsNotFound` reports true; `msg` is `fmt.Errorf`; `wrap`
is `errors.Wrap` / `errors.Wrapf` from `github.com/pkg/errors` applied to a
non-nil cause. -/
inductive GoError where
  | notFound : GoError
  | msg : String → GoError
  | wrap : String → GoError → GoError
deriving Repr, DecidableEq

/-- `apierrors.IsNotFound` on a possibly-nil Go error: true exactly on a
NotFound status error (false on nil). -/
def isNotFound : Option GoError → Bool
  | some GoError.notFound => true
  | _ => false

/-- `errors.Wrapf(err, message)`: returns nil when `err` is nil, otherwise a
new error wrapping `err` with the message. -/
def wrapf (err : Option GoError) (message : String) : Option GoError :=
  err.map (fun e => GoError.wrap message e)

/-- The in-memory structured (unstructured) object: a schemaless manifest
tree with a distinguished identity.  The claims only inspect the identity
fields (`GetName`, `GetNamespace`, kind/apiVersion); the rest of the tree is
opaque payload, modelled as a generic key/value list so that distinct objects
stay distinguishable. -/
structure Unstructured where
  apiVersion : String := ""
  kind : String := ""
  name : String := ""
  ns : String := ""
  payload : List (String × String) := []
deriving Repr, DecidableEq

/-- A kubernetes call result: the returned object pointer and the returned
error, either of which may be nil. -/
def KRes : Type := Option Unstructured × Option GoError

/-- `UnstructuredMiddleware`: updates a given unstructured instance
(Go: `func(given *unstructured.Unstructured) *unstructured.Unstructured`). -/
def UnstructuredMiddleware : Type := Option Unstructured → Option Unstructured

/-- `UnstructuredUpdater` updates an unstructured instance by executing all
the provided updaters, in list order. -/
def UnstructuredUpdater (updaters : List UnstructuredMiddleware) :
    UnstructuredMiddleware :=
  fun given => updaters.foldl (fun acc u => u acc) given

/-- `ResourceGetter`: fetches an unstructured instance by name from the
remote store.  The store interaction is effectful, so the primitive threads
an explicit state `σ`. -/
def ResourceGetter (σ : Type) : Type := String → σ → KRes × σ

/-- `ResourceCreator`: creates an unstructured instance in the remote store. -/
def ResourceCreator (σ : Type) : Type := Option Unstructured → σ → KRes × σ

/-- `ResourceUpdater`: updates (full overwrite) an unstructured instance
found in the remote store. -/
def ResourceUpdater (σ : Type) : Type := Option Unstructured → σ → KRes × σ

/-- `ResourceApplyOptions`: the three injected primitives used during a
resource's apply operation.  Each is a Go function value and may be nil. -/
structure ResourceApplyOptions (σ : Type) where
  Getter : Option (ResourceGetter σ)
  Creator : Option (ResourceCreator σ)
  Updater : Option (ResourceUpdater σ)

/-- `ResourceApplier`: applies an unstructured instance that may or may not
already be present in the remote store. -/
def ResourceApplier (σ : Type) : Type := Option Unstructured → σ → KRes × σ

/-- `newResourceApplier` from `unstructured.go`.  The returned closure
checks the three injected primitives and the object for nil, then calls
`Getter(obj.GetName(), ...)`; if `apierrors.IsNotFound(err)` it returns the
result of `Creator(obj, ...)`, and otherwise it returns
`(resource, errors.Wrapf(err, "failed to apply resource ..."))` — where
`resource` and `err` are the getter's results and `Wrapf` of a nil error is
nil.  Both branches of the if/else return, so the source's final
`return options.Updater(obj, subresources...)` is unreachable and has no
counterpart here: `Updater` is matched (nil-checked) but never invoked. -/
def newResourceApplier (options : ResourceApplyOptions σ) : ResourceApplier σ :=
  fun obj s =>
    match options.Getter with
    | none => ((none, some (GoError.msg "nil resource getter instance: failed to apply resource")), s)
    | some getter =>
      match options.Creator with
      | none => ((none, some (GoError.msg "nil resource creator instance: failed to apply resource")), s)
      | some creator =>
        match options.Updater with
        | none => ((none, some (GoError.msg "nil resource updater instance: failed to apply resource")), s)
        | some _updater =>
          match obj with
          | none => ((none, some (GoError.msg "nil resource instance: failed to apply resource")), s)
          | some o =>
            let r := getter o.name s
            let resource := r.1.1
            let err := r.1.2
            let s1 := r.2
            if isNotFound err then
              -- create if not found
              creator (some o) s1
            else
              -- some genuine error at kubernetes server
              ((resource, wrapf err ("failed to apply resource " ++ o.name)), s1)

/-! ### Call-trace instrumentation

The injected primitives are opaque effectful functions; to express claims of
the form "create is invoked exactly once with the given object" we pair the
primitive's own state with an event log and wrap each primitive so that it
records its invocation.  The wrappers change nothing about the primitive's
behaviour. -/

/-- One recorded invocation of an injected store primitive. -/
inductive CallEv where
  | get (name : String)
  | create (obj : Option Unstructured)
  | update (obj : Option Unstructured)
deriving Repr, DecidableEq

/-- Wrap a getter so that every invocation is appended to an event log. -/
def traceGetter (g : ResourceGetter σ) : ResourceGetter (σ × List CallEv) :=
  fun n s =>
    let r := g n s.1
    (r.1, (r.2, s.2 ++ [CallEv.get n]))

/-- Wrap a creator so that every invocation is appended to an event log. -/
def traceCreator (c : ResourceCreator σ) : ResourceCreator (σ × List CallEv) :=
  fun o s =>
    let r := c o s.1
    (r.1, (r.2, s.2 ++ [CallEv.create o]))

/-- Wrap an updater so that every invocation is appended to an event log. -/
def traceUpdater (u : ResourceUpdater σ) : ResourceUpdater (σ × List CallEv) :=
  fun o s =>
    let r := u o s.1
    (r.1, (r.2, s.2 ++ [CallEv.update o]))

/-- Apply options built from three present primitives, each instrumented to
log its invocations. -/
def tracedOptions (g : ResourceGetter σ) (c : ResourceCreator σ)
    (u : ResourceUpdater σ) : ResourceApplyOptions (σ × List CallEv) :=
  { Getter := some (traceGetter g)
    Creator := some (traceCreator c)
    Updater := some (traceUpdater u) }

/-! ### The remote store and the cluster-backed primitives

`NewResourceGetter` / `NewResourceCreator` / `NewResourceUpdater` in the
source obtain a dynamic client via `NewDynamicGetter()()` and address the
store by `(gvr, namespace, name)`.  The dynamic client itself is an external
collaborator whose code is not part of the core. -/

/-- `schema.GroupVersionResource`: where an object lives in the remote
store. -/
structure GroupVersionResource where
  Group : String := ""
  Version : String := ""
  Resource : String := ""
deriving Repr, DecidableEq

/-- Modelled from the spec: the remote declarative object store, addressed
by (group, version, plural-resource-name, namespace, object-name), with
get/create/update and a distinguishable NotFound condition.  Represented as
an association list from address to stored object. -/
def Cluster : Type := List ((GroupVersionResource × String × String) × Unstructured)

/-- Look an object up in the cluster store by its full address. -/
def clusterLookup (gvr : GroupVersionResource) (ns name : String)
    (s : Cluster) : Option Unstructured :=
  (s.find? (fun e => e.1 = (gvr, ns, name))).map (fun e => e.2)

/-- Store an object at its full address (whole-object replacement). -/
def clusterStore (gvr : GroupVersionResource) (ns name : String)
    (o : Unstructured) (s : Cluster) : Cluster :=
  ((gvr, ns, name), o) :: s.filter (fun e => ¬ e.1 = (gvr, ns, name))

/-- The test `len(strings.TrimSpace(s)) == 0`: true exactly when the string
is empty or consists of whitespace only.  Stated directly on the characters
so that concrete instances evaluate inside the kernel. -/
def isBlank (s : String) : Bool := s.data.all Char.isWhitespace

/-- `NewResourceGetter` from `unstructured.go`: fails with a
missing-resource-name error when the name is empty after trimming spaces,
otherwise fetches from the remote store; the store reports a NotFound error
when the object is absent (Modelled from the spec: the dynamic-client `Get`
reached through `NewDynamicGetter` is outside the core sources). -/
def NewResourceGetter (gvr : GroupVersionResource) (ns : String) :
    ResourceGetter Cluster :=
  fun name s =>
    if (isBlank name) then
      ((none, some (GoError.msg "missing resource name: failed to get resource")), s)
    else
      match clusterLookup gvr ns name s with
      | some o => ((some o, none), s)
      | none => ((none, some GoError.notFound), s)

/-- `NewResourceCreator` from `unstructured.go`: rejects a nil object,
otherwise creates the object in the remote store at the configured address
(Modelled from the spec: the dynamic-client `Create` is outside the core
sources; create-on-already-present behaviour is never exercised by the
apply algorithm and is modelled as replacement). -/
def NewResourceCreator (gvr : GroupVersionResource) (ns : String) :
    ResourceCreator Cluster :=
  fun obj s =>
    match obj with
    | none => ((none, some (GoError.msg "nil resource instance: failed to create resource")), s)
    | some o => ((some o, none), clusterStore gvr ns o.name o s)

/-- `NewResourceUpdater` from `unstructured.go`: rejects a nil object,
otherwise overwrites the stored object at the configured address (Modelled
from the spec: the dynamic-client `Update` is outside the core sources;
update is a full overwrite, not a patch-merge). -/
def NewResourceUpdater (gvr : GroupVersionResource) (ns : String) :
    ResourceUpdater Cluster :=
  fun obj s =>
    match obj with
    | none => ((none, some (GoError.msg "nil resource instance: failed to update resource")), s)
    | some o => ((some o, none), clusterStore gvr ns o.name o s)

/-- `NewResourceApplier` from `unstructured.go`: the applier built from the
three cluster-backed primitives. -/
def NewResourceApplier (gvr : GroupVersionResource) (ns : String) :
    ResourceApplier Cluster :=
  newResourceApplier
    { Getter := some (NewResourceGetter gvr ns)
      Creator := some (NewResourceCreator gvr ns)
      Updater := some (NewResourceUpdater gvr ns) }

/-! ### The installer orchestrator

`simpleInstaller.Install` resolves the install configuration, gathers and
mutates the artifacts of every configured version, applies each resulting
object, and accumulates errors on the embedded `installErrors` value.  The
collaborator types (`ConfigGetterFunc`, `VersionArtifactLister`,
`ArtifactToUnstructuredListTransformer`, `WithInstallUnstructuredUpdater`,
`GroupVersionResourceFromGVK`, `env.Get`) are declared in repository files
that are not among the sources, so they are modelled from the spec. -/

/-- An artifact: a document template paired with its resource-type
descriptor (the two fields populated by the registrar sources). -/
structure Artifact where
  Doc : String := ""
  gvr : GroupVersionResource := {}
deriving Repr, DecidableEq

/-- Modelled from the spec: one install-spec entry — a requested version
plus override values (namespace, labels, annotations, feature toggles); the
overrides are consumed only by the injected updaters and are kept opaque. -/
structure InstallSpecEntry where
  version : String := ""
  overrides : List (String × String) := []

/-- The spec section of the install configuration; `Install` is its ordered
entry list (Go: `config.Spec.Install`). -/
structure InstallConfigSpec where
  Install : List InstallSpecEntry := []

/-- Modelled from the spec: the install configuration resolved from a named
config object. -/
structure InstallConfig where
  Spec : InstallConfigSpec := {}

/-- Modelled from the spec: `getConfig(name) -> (InstallConfig, error)`;
the returned pointer may be nil. -/
def ConfigGetterFunc : Type := String → Option InstallConfig × Option GoError

/-- Modelled from the spec:
`listArtifactsByVersion(version) -> ([]Artifact, error)`. -/
def VersionArtifactLister : Type := String → List Artifact × Option GoError

/-- Modelled from the spec: transforms a list of artifacts into structured
objects via the Decoder, returning the decoded objects together with the
individual decode failures. -/
def ArtifactToUnstructuredListTransformer : Type :=
  List Artifact → List (Option Unstructured) × List (Option GoError)

/-- Modelled from the spec: an unstructured updater parameterized by the
install entry whose override values it reads. -/
def WithInstallUnstructuredUpdater : Type := InstallSpecEntry → UnstructuredMiddleware

/-- Modelled from the spec: instantiates each entry-parameterized updater
with the given install entry, preserving order. -/
def WithInstallUnstructuredUpdaterList (install : InstallSpecEntry)
    (updaters : List WithInstallUnstructuredUpdater) : List UnstructuredMiddleware :=
  updaters.map (fun u => u install)

/-- Modelled from the spec: resource-type assignment derives the store
descriptor from the object's declared kind — one fixed descriptor for
template-kind objects and one for task-kind objects. -/
def GroupVersionResourceFromGVK (obj : Option Unstructured) : GroupVersionResource :=
  match obj with
  | some o =>
      if o.kind = "CASTemplate" then
        { Group := "openebs.io", Version := "v1alpha1", Resource := "castemplates" }
      else
        { Group := "openebs.io", Version := "v1alpha1", Resource := "runtasks" }
  | none => {}

/-- `GetNamespace` on the object pointer held by the orchestrator.  (Go
would dereference a nil pointer here; no claim exercises a nil element of
the mutated-object list.) -/
def getNamespace : Option Unstructured → String
  | some o => o.ns
  | none => ""

/-- `simpleInstaller`: installs artifacts by making use of the install
config.  The embedded `installErrors` struct is flattened into the `errors`
field; `addError` / `addErrors` below are its methods. -/
structure simpleInstaller where
  configGetter : Option ConfigGetterFunc
  artifactLister : VersionArtifactLister
  transformer : ArtifactToUnstructuredListTransformer
  unstructuredUpdaters : List WithInstallUnstructuredUpdater
  errors : List (Option GoError) := []

/-- `installErrors.addError`: appends an error to the receiver's error list
and returns the list. -/
def simpleInstaller.addError (i : simpleInstaller) (err : Option GoError) :
    simpleInstaller × List (Option GoError) :=
  let i1 := { i with errors := i.errors ++ [err] }
  (i1, i1.errors)

/-- `installErrors.addErrors`: appends a list of errors one by one via
`addError` and returns the accumulated list. -/
def simpleInstaller.addErrors (i : simpleInstaller) (errs : List (Option GoError)) :
    simpleInstaller × List (Option GoError) :=
  let i1 := errs.foldl (fun acc e => (acc.addError e).1) i
  (i1, i1.errors)

/-- One iteration of `Install`'s first loop (over `config.Spec.Install`):
list the entry's artifacts (appending the wrap of a lister error and moving
on), transform them (appending any decode errors), then run the composed
updater pipeline over each object and accumulate the results. -/
def installResolveStep (acc : simpleInstaller × List (Option Unstructured))
    (install : InstallSpecEntry) : simpleInstaller × List (Option Unstructured) :=
  let ii := acc.1
  let r := ii.artifactLister install.version
  match r.2 with
  | some e =>
      ((ii.addError (some (GoError.wrap
        ("simple installer failed to list artifacts for version " ++ install.version) e))).1,
       acc.2)
  | none =>
      let t := ii.transformer r.1
      let ii1 := if t.2.length ≠ 0 then (ii.addErrors t.2).1 else ii
      let finalUpdater :=
        UnstructuredUpdater (WithInstallUnstructuredUpdaterList install ii.unstructuredUpdaters)
      (ii1, acc.2 ++ t.1.map finalUpdater)

/-- One iteration of `Install`'s second loop (over the accumulated mutated
objects): build the cluster-backed applier for the object's descriptor and
namespace, apply the object, and append the apply call's error result —
`i.addError(err)` in the source, with no nil check on `err`. -/
def installApplyStep (acc : simpleInstaller × Cluster)
    (unstruct : Option Unstructured) : simpleInstaller × Cluster :=
  let apply := NewResourceApplier (GroupVersionResourceFromGVK unstruct) (getNamespace unstruct)
  let r := apply unstruct acc.2
  ((acc.1.addError r.1.2).1, r.2)

/-- `simpleInstaller.Install`.  `envConfigName` stands for the ambient
`env.Get(EnvKeyForInstallConfigName)` lookup; the remote cluster state is
threaded explicitly.  Returns the error list returned by the Go method,
together with the updated installer (receiver mutation) and cluster.  (When
the config getter returns a nil config with a nil error the Go code would
dereference nil; that collaborator behaviour is never exercised and the
model reads an empty config.) -/
def simpleInstaller.Install (i : simpleInstaller) (envConfigName : String)
    (cluster : Cluster) : List (Option GoError) × simpleInstaller × Cluster :=
  match i.configGetter with
  | none =>
      let r := i.addError (some (GoError.msg "nil config getter: simple installer failed"))
      (r.2, r.1, cluster)
  | some configGetter =>
      let g := configGetter envConfigName
      match g.2 with
      | some e =>
          let r := i.addError (some (GoError.wrap "simple installer failed" e))
          (r.2, r.1, cluster)
      | none =>
          let config := g.1.getD {}
          let resolved := config.Spec.Install.foldl installResolveStep (i, [])
          let applied := resolved.2.foldl installApplyStep (resolved.1, cluster)
          (applied.1.errors, applied.1, applied.2)

/-! ## Theorems -/

/-- C9: `UnstructuredUpdater` composes an ordered list of mutations into a
single mutation applying each element in list order, and the composition is
a list homomorphism: running the composition of `xs ++ ys` equals running
the composition of `xs` and then the composition of `ys`, so a composed
pipeline is itself a mutation and pipelines of pipelines behave like the
flattened pipeline. -/
theorem unstructuredUpdater_append (xs ys : List UnstructuredMiddleware)
    (o : Option Unstructured) :
    UnstructuredUpdater (xs ++ ys) o =
      UnstructuredUpdater ys (UnstructuredUpdater xs o) := by
  simp [UnstructuredUpdater, List.foldl_append]

/-- C5: for every apply call whose get fails with NotFound, create is
invoked exactly once with the given object (the final call trace is exactly
one get followed by one create of that object — in particular update is
never invoked) and the apply call returns create's result. -/
theorem apply_notFound_creates {σ : Type} (g : ResourceGetter σ)
    (c : ResourceCreator σ) (u : ResourceUpdater σ) (o : Unstructured)
    (r : Option Unstructured) (s s1 : σ)
    (hget : g o.name s = ((r, some GoError.notFound), s1)) :
    newResourceApplier (tracedOptions g c u) (some o) (s, []) =
      ((c (some o) s1).1,
       ((c (some o) s1).2, [CallEv.get o.name, CallEv.create (some o)])) := by
  simp [newResourceApplier, tracedOptions, traceGetter, traceCreator, hget, isNotFound]

/-- C5 witness: a concrete not-found apply run returning the created
object with the trace get-then-create. -/
theorem apply_notFound_creates_witness :
    newResourceApplier
      (tracedOptions (fun (_ : String) (s : Unit) => ((none, some GoError.notFound), s))
        (fun ob (s : Unit) => ((ob, none), s))
        (fun ob (s : Unit) => ((ob, none), s)))
      (some { name := "x" }) ((), []) =
      ((some { name := "x" }, none),
       ((), [CallEv.get "x", CallEv.create (some { name := "x" })])) :=
  apply_notFound_creates _ _ _ { name := "x" } none () () rfl

/-- Getter used to evaluate the found path: get succeeds and returns the
stored object. -/
def foundPathGetter : ResourceGetter Unit :=
  fun _ s => ((some { name := "x", payload := [("stored", "v1")] }, none), s)

/-- Creator used to evaluate the found path. -/
def foundPathCreator : ResourceCreator Unit :=
  fun ob s => ((ob, none), s)

/-- Updater used to evaluate the found path; it returns an object
distinguishable from the stored one, so the final result shows whether it
ran. -/
def foundPathUpdater : ResourceUpdater Unit :=
  fun _ s => ((some { name := "x", payload := [("updated", "yes")] }, none), s)

/-- C1: evaluation of the found path.  When get succeeds, the apply call
returns the object fetched by get with a nil error and the call trace holds
only the get: update is never invoked (the updater here would have returned
a distinguishable object), because the else branch of the source returns
`(resource, errors.Wrapf(nil, ...)) = (resource, nil)` and the final
`return options.Updater(obj, subresources...)` is unreachable. -/
theorem apply_found_skips_update :
    newResourceApplier (tracedOptions foundPathGetter foundPathCreator foundPathUpdater)
      (some { name := "x" }) ((), []) =
      ((some { name := "x", payload := [("stored", "v1")] }, none),
       ((), [CallEv.get "x"])) := rfl

/-- C3 counterexample: a get error other than NotFound is not propagated
unchanged — at a concrete getter failing with the error "boom", the apply
call returns that error wrapped in a failed-to-apply context message, which
differs from the original error. -/
theorem apply_getError_changed :
    (newResourceApplier
        (tracedOptions (fun (_ : String) (s : Unit) => ((none, some (GoError.msg "boom")), s))
          (fun ob (s : Unit) => ((ob, none), s))
          (fun ob (s : Unit) => ((ob, none), s)))
        (some { name := "x" }) ((), [])).1.2 =
      some (GoError.wrap "failed to apply resource x" (GoError.msg "boom")) ∧
    some (GoError.wrap "failed to apply resource x" (GoError.msg "boom")) ≠
      some (GoError.msg "boom") := by
  refine ⟨rfl, ?_⟩
  decide

/-- C3 amended: for every apply call, if get returns any error other than
NotFound, then neither create nor update is invoked (the call trace is the
single get) and the apply call returns the get error wrapped with a
failed-to-apply context message, alongside whatever object pointer get
returned. -/
theorem apply_getError_wraps {σ : Type} (g : ResourceGetter σ)
    (c : ResourceCreator σ) (u : ResourceUpdater σ) (o : Unstructured)
    (r : Option Unstructured) (s s1 : σ) (e : GoError)
    (hget : g o.name s = ((r, some e), s1)) (hnf : e ≠ GoError.notFound) :
    newResourceApplier (tracedOptions g c u) (some o) (s, []) =
      ((r, some (GoError.wrap ("failed to apply resource " ++ o.name) e)),
       (s1, [CallEv.get o.name])) := by
  have hfalse : isNotFound (some e) = false := by
    cases e with
    | notFound => exact absurd rfl hnf
    | msg m => rfl
    | wrap m c => rfl
  simp [newResourceApplier, tracedOptions, traceGetter, hget, hfalse, wrapf]

/-- C3 amended witness: concrete run of the wrapped-error path. -/
theorem apply_getError_wraps_witness :
    (GoError.msg "boom" ≠ GoError.notFound) ∧
    newResourceApplier
      (tracedOptions (fun (_ : String) (s : Unit) => ((none, some (GoError.msg "boom")), s))
        (fun ob (s : Unit) => ((ob, none), s))
        (fun ob (s : Unit) => ((ob, none), s)))
      (some { name := "x" }) ((), []) =
      ((none, some (GoError.wrap "failed to apply resource x" (GoError.msg "boom"))),
       ((), [CallEv.get "x"])) :=
  ⟨by decide,
   apply_getError_wraps _ _ _ { name := "x" } none () () (GoError.msg "boom") rfl (by decide)⟩

/-- C7 counterexample: the misconfiguration error for a nil primitive is
not raised at construction — constructing from options whose primitives are
all nil yields an applier value, and it is the apply call on that value that
returns the nil-getter error, so detection is deferred to every apply call
rather than surfacing when the applier is built (the constructor has no
error channel at all). -/
theorem applier_nilPrimitive_deferred :
    newResourceApplier (σ := Unit)
      { Getter := none, Creator := none, Updater := none }
      (some { name := "x" }) () =
      ((none, some (GoError.msg "nil resource getter instance: failed to apply resource")), ()) :=
  rfl

/-- C7 amended: a missing get, create, or update primitive is detected at
apply time, not at construction: construction always yields an applier, and
every apply call of an applier built from options with a nil primitive
returns the corresponding misconfiguration error without touching the
state (so no primitive is invoked). -/
theorem apply_nilPrimitive_error {σ : Type} (options : ResourceApplyOptions σ)
    (obj : Option Unstructured) (s : σ) :
    (options.Getter = none →
      newResourceApplier options obj s =
        ((none, some (GoError.msg "nil resource getter instance: failed to apply resource")), s)) ∧
    (∀ g, options.Getter = some g → options.Creator = none →
      newResourceApplier options obj s =
        ((none, some (GoError.msg "nil resource creator instance: failed to apply resource")), s)) ∧
    (∀ g c, options.Getter = some g → options.Creator = some c → options.Updater = none →
      newResourceApplier options obj s =
        ((none, some (GoError.msg "nil resource updater instance: failed to apply resource")), s)) := by
  refine ⟨fun hG => ?_, fun g hG hC => ?_, fun g c hG hC hU => ?_⟩
  · simp [newResourceApplier, hG]
  · simp [newResourceApplier, hG, hC]
  · simp [newResourceApplier, hG, hC, hU]

/-- C7 amended witness: concrete apply calls on appliers built with a nil
getter, a nil creator, and a nil updater, each returning the matching
misconfiguration error. -/
theorem apply_nilPrimitive_error_witness :
    newResourceApplier (σ := Unit)
      { Getter := none, Creator := none, Updater := none } none () =
      ((none, some (GoError.msg "nil resource getter instance: failed to apply resource")), ()) ∧
    newResourceApplier (σ := Unit)
      { Getter := some (fun _ s => ((none, none), s)), Creator := none, Updater := none } none () =
      ((none, some (GoError.msg "nil resource creator instance: failed to apply resource")), ()) ∧
    newResourceApplier (σ := Unit)
      { Getter := some (fun _ s => ((none, none), s)),
        Creator := some (fun ob s => ((ob, none), s)), Updater := none } none () =
      ((none, some (GoError.msg "nil resource updater instance: failed to apply resource")), ()) :=
  ⟨(apply_nilPrimitive_error _ none ()).1 rfl,
   (apply_nilPrimitive_error _ none ()).2.1 _ rfl rfl,
   (apply_nilPrimitive_error _ none ()).2.2 _ _ rfl rfl rfl⟩

/-- Looking up the address an object was just stored at returns that
object. -/
theorem clusterLookup_store_self (gvr : GroupVersionResource) (ns name : String)
    (o : Unstructured) (s : Cluster) :
    clusterLookup gvr ns name (clusterStore gvr ns name o s) = some o := by
  simp [clusterLookup, clusterStore, List.find?]

/-- C8: the Resource Applier rejects invalid input with an error rather
than silently skipping it.  A nil object makes the apply call return the
nil-resource error before any primitive runs (empty trace, any injected
primitives); an object whose name is empty or whitespace-only makes the
apply call built on the cluster-backed primitives return the
missing-resource-name error wrapped in the failed-to-apply context, with a
trace holding only the get — create and update are never invoked and the
cluster is untouched. -/
theorem apply_rejects_invalid {σ : Type} (g : ResourceGetter σ)
    (c : ResourceCreator σ) (u : ResourceUpdater σ) (s : σ)
    (gvr : GroupVersionResource) (ns : String) (cl : Cluster)
    (o : Unstructured) (hblank : isBlank o.name = true) :
    newResourceApplier (tracedOptions g c u) none (s, []) =
      ((none, some (GoError.msg "nil resource instance: failed to apply resource")), (s, [])) ∧
    newResourceApplier
      (tracedOptions (NewResourceGetter gvr ns) (NewResourceCreator gvr ns)
        (NewResourceUpdater gvr ns))
      (some o) (cl, []) =
      ((none, some (GoError.wrap ("failed to apply resource " ++ o.name)
          (GoError.msg "missing resource name: failed to get resource"))),
       (cl, [CallEv.get o.name])) := by
  constructor
  · rfl
  · simp [newResourceApplier, tracedOptions, traceGetter, NewResourceGetter, hblank,
      isNotFound, wrapf]

/-- C8 witness: the nil object and a whitespace-only-named object are both
rejected in concrete runs. -/
theorem apply_rejects_invalid_witness :
    (isBlank " " = true) ∧
    (newResourceApplier
        (tracedOptions (fun (_ : String) (s : Unit) => ((none, none), s))
          (fun ob (s : Unit) => ((ob, none), s))
          (fun ob (s : Unit) => ((ob, none), s)))
        none ((), []) =
      ((none, some (GoError.msg "nil resource instance: failed to apply resource")), ((), [])) ∧
    newResourceApplier
        (tracedOptions (NewResourceGetter {} "") (NewResourceCreator {} "")
          (NewResourceUpdater {} ""))
        (some { name := " " }) ([], []) =
      ((none, some (GoError.wrap "failed to apply resource  "
          (GoError.msg "missing resource name: failed to get resource"))),
       ([], [CallEv.get " "]))) :=
  ⟨by decide, apply_rejects_invalid _ _ _ () {} "" [] { name := " " } (by decide)⟩

/-- C4: apply is idempotent.  For a non-nil object whose name is non-blank,
the first apply against any cluster state succeeds, and applying the same
object again from the resulting state returns exactly the first call's
result and leaves the cluster exactly as the first call left it — the same
stored object and no additional error. -/
theorem apply_idempotent (gvr : GroupVersionResource) (ns : String)
    (o : Unstructured) (s : Cluster) (h : isBlank o.name = false) :
    (NewResourceApplier gvr ns (some o) s).1.2 = none ∧
    NewResourceApplier gvr ns (some o) (NewResourceApplier gvr ns (some o) s).2 =
      NewResourceApplier gvr ns (some o) s := by
  cases hlk : clusterLookup gvr ns o.name s with
  | none =>
      simp [NewResourceApplier, newResourceApplier, NewResourceGetter, NewResourceCreator,
        hlk, h, isNotFound, wrapf, clusterLookup_store_self]
  | some v =>
      simp [NewResourceApplier, newResourceApplier, NewResourceGetter, NewResourceCreator,
        hlk, h, isNotFound, wrapf]

/-- C4 witness: a concrete double apply of the object named x against the
empty cluster. -/
theorem apply_idempotent_witness :
    (isBlank "x" = false) ∧
    ((NewResourceApplier {} "" (some { name := "x" }) []).1.2 = none ∧
     NewResourceApplier {} "" (some { name := "x" })
         (NewResourceApplier {} "" (some { name := "x" }) []).2 =
       NewResourceApplier {} "" (some { name := "x" }) []) :=
  ⟨by decide, apply_idempotent {} "" { name := "x" } [] (by decide)⟩

/-- C6: if the configuration source returns an error, Install on a fresh
installer returns the single-element list wrapping that error and stops:
the result holds for every artifact lister, transformer and updater list
(none of them is consulted), and the cluster comes back unchanged (no apply
call runs). -/
theorem install_configError_single (g : ConfigGetterFunc)
    (lister : VersionArtifactLister) (tr : ArtifactToUnstructuredListTransformer)
    (updaters : List WithInstallUnstructuredUpdater) (envName : String)
    (cl : Cluster) (cfgres : Option InstallConfig) (e : GoError)
    (hg : g envName = (cfgres, some e)) :
    simpleInstaller.Install
      { configGetter := some g, artifactLister := lister, transformer := tr,
        unstructuredUpdaters := updaters, errors := [] } envName cl =
      ([some (GoError.wrap "simple installer failed" e)],
       { configGetter := some g, artifactLister := lister, transformer := tr,
         unstructuredUpdaters := updaters,
         errors := [some (GoError.wrap "simple installer failed" e)] },
       cl) := by
  simp [simpleInstaller.Install, hg, simpleInstaller.addError]

/-- Config source used by the C6 witness: always unavailable. -/
def cfgErrGetter : ConfigGetterFunc := fun _ => (none, some (GoError.msg "config unavailable"))

/-- Artifact lister used by the C6 witness: empty catalog. -/
def emptyLister : VersionArtifactLister := fun _ => ([], none)

/-- Transformer used by the C6 witness: decodes nothing. -/
def emptyTransformer : ArtifactToUnstructuredListTransformer := fun _ => ([], [])

/-- C6 witness: a concrete failing config source makes a concrete fresh
installer stop with exactly one wrapped error. -/
theorem install_configError_single_witness :
    simpleInstaller.Install
      { configGetter := some cfgErrGetter, artifactLister := emptyLister,
        transformer := emptyTransformer, unstructuredUpdaters := [], errors := [] } "" [] =
      ([some (GoError.wrap "simple installer failed" (GoError.msg "config unavailable"))],
       { configGetter := some cfgErrGetter, artifactLister := emptyLister,
         transformer := emptyTransformer, unstructuredUpdaters := [],
         errors := [some (GoError.wrap "simple installer failed" (GoError.msg "config unavailable"))] },
       []) :=
  install_configError_single cfgErrGetter emptyLister emptyTransformer [] "" [] none
    (GoError.msg "config unavailable") rfl

/-- Resource-type descriptor shared by the C2 scenario objects. -/
def demoGVR : GroupVersionResource :=
  { Group := "openebs.io", Version := "v1alpha1", Resource := "castemplates" }

/-- First object of the C2 scenario; its apply succeeds. -/
def objA : Unstructured := { kind := "CASTemplate", name := "a", ns := "openebs" }

/-- Second object of the C2 scenario; its whitespace-only name makes its
apply fail. -/
def objB : Unstructured := { kind := "CASTemplate", name := " ", ns := "openebs" }

/-- Replacement second object for the all-success variant of the C2
scenario. -/
def objB2 : Unstructured := { kind := "CASTemplate", name := "b", ns := "openebs" }

/-- Third object of the C2 scenario; its apply succeeds. -/
def objC : Unstructured := { kind := "CASTemplate", name := "c", ns := "openebs" }

/-- Installer for the C2 scenario: one configured entry whose artifacts
decode to the three objects, no extra updaters. -/
def demoInstaller : simpleInstaller :=
  { configGetter := some (fun _ => (some { Spec := { Install := [{ version := "0.7.0" }] } }, none))
    artifactLister := fun _ => ([{ Doc := "doc" }], none)
    transformer := fun _ => ([some objA, some objB, some objC], [])
    unstructuredUpdaters := []
    errors := [] }

/-- Installer for the all-success variant of the C2 scenario. -/
def demoInstallerOK : simpleInstaller :=
  { configGetter := some (fun _ => (some { Spec := { Install := [{ version := "0.7.0" }] } }, none))
    artifactLister := fun _ => ([{ Doc := "doc" }], none)
    transformer := fun _ => ([some objA, some objB2, some objC], [])
    unstructuredUpdaters := []
    errors := [] }

/-- C2: evaluation of the partial-failure scenario.  With three mutated
objects of which only the second fails apply, Install does keep going —
the final cluster holds the first and third objects — but the returned list
has three entries, not one: `i.addError(err)` runs after every apply with
no nil check, so successful applies contribute nil entries; in the
all-success variant the list is `[nil, nil, nil]` rather than empty. -/
theorem install_records_every_apply :
    (demoInstaller.Install "" []).1 =
      [none,
       some (GoError.wrap "failed to apply resource  "
         (GoError.msg "missing resource name: failed to get resource")),
       none] ∧
    (demoInstaller.Install "" []).2.2 =
      [((demoGVR, "openebs", "c"), objC), ((demoGVR, "openebs", "a"), objA)] ∧
    (demoInstallerOK.Install "" []).1 = [none, none, none] :=
  ⟨rfl, rfl, rfl⟩

/-- Folding `addError` over a list appends that list to the error field. -/
theorem foldl_addError_errors (es : List (Option GoError)) (i : simpleInstaller) :
    (es.foldl (fun acc e => (acc.addError e).1) i).errors = i.errors ++ es := by
  induction es generalizing i with
  | nil => simp
  | cons e es ih =>
      rw [List.foldl_cons, ih]
      simp [simpleInstaller.addError]

/-- One resolve-loop iteration only appends to the error field. -/
theorem installResolveStep_errors (acc : simpleInstaller × List (Option Unstructured))
    (entry : InstallSpecEntry) :
    ∃ t, ((installResolveStep acc entry).1).errors = acc.1.errors ++ t := by
  unfold installResolveStep
  cases hr : (acc.1.artifactLister entry.version).2 with
  | some e =>
      exact ⟨[some (GoError.wrap
        ("simple installer failed to list artifacts for version " ++ entry.version) e)],
        by simp [hr, simpleInstaller.addError]⟩
  | none =>
      simp only [hr]
      split
      · exact ⟨(acc.1.transformer (acc.1.artifactLister entry.version).1).2,
          by simp [simpleInstaller.addErrors, foldl_addError_errors]⟩
      · exact ⟨[], by simp⟩

/-- One apply-loop iteration only appends to the error field. -/
theorem installApplyStep_errors (acc : simpleInstaller × Cluster)
    (u : Option Unstructured) :
    ∃ t, ((installApplyStep acc u).1).errors = acc.1.errors ++ t :=
  ⟨[(NewResourceApplier (GroupVersionResourceFromGVK u) (getNamespace u) u acc.2).1.2], rfl⟩

/-- A fold whose step only appends to the error field itself only appends
to the error field. -/
theorem foldl_step_errors {α β : Type}
    (step : (simpleInstaller × α) → β → (simpleInstaller × α))
    (hstep : ∀ acc b, ∃ t, ((step acc b).1).errors = acc.1.errors ++ t)
    (l : List β) (acc : simpleInstaller × α) :
    ∃ t, ((l.foldl step acc).1).errors = acc.1.errors ++ t := by
  induction l generalizing acc with
  | nil => exact ⟨[], by simp⟩
  | cons b bs ih =>
      obtain ⟨t1, h1⟩ := hstep acc b
      obtain ⟨t2, h2⟩ := ih (step acc b)
      exact ⟨t1 ++ t2, by simp [h2, h1]⟩

/-- Install returns exactly the receiver's error field as updated by the
run, and that field only grows: the returned list extends the errors the
installer already carried. -/
theorem install_errors_extend (i : simpleInstaller) (env : String) (cl : Cluster) :
    (i.Install env cl).1 = ((i.Install env cl).2.1).errors ∧
    ∃ t, (i.Install env cl).1 = i.errors ++ t := by
  cases hc : i.configGetter with
  | none =>
      refine ⟨?_, ⟨[some (GoError.msg "nil config getter: simple installer failed")], ?_⟩⟩ <;>
        simp [simpleInstaller.Install, hc, simpleInstaller.addError]
  | some g =>
      cases hg : (g env).2 with
      | some e =>
          refine ⟨?_, ⟨[some (GoError.wrap "simple installer failed" e)], ?_⟩⟩ <;>
            simp [simpleInstaller.Install, hc, hg, simpleInstaller.addError]
      | none =>
          obtain ⟨t1, h1⟩ := foldl_step_errors installResolveStep installResolveStep_errors
            ((((g env).1.getD {}).Spec.Install)) (i, [])
          obtain ⟨t2, h2⟩ := foldl_step_errors installApplyStep installApplyStep_errors
            ((((g env).1.getD {}).Spec.Install).foldl installResolveStep (i, [])).2
            (((((g env).1.getD {}).Spec.Install).foldl installResolveStep (i, [])).1, cl)
          refine ⟨?_, ⟨t1 ++ t2, ?_⟩⟩
          · simp [simpleInstaller.Install, hc, hg]
          · simp only [simpleInstaller.Install, hc, hg]
            simp at h2
            rw [h2, h1, List.append_assoc]

/-- C10: the error list of a simpleInstaller is monotonically accumulated
on the installer value itself across calls — Install returns exactly the
updated struct field, and a second Install call on the returned installer
yields a list that extends (contains as a prefix) everything the first call
returned: Install is stateful, not a fresh computation per call. -/
theorem install_accumulates_across_calls (i : simpleInstaller)
    (env1 env2 : String) (cl1 cl2 : Cluster) :
    (i.Install env1 cl1).1 = ((i.Install env1 cl1).2.1).errors ∧
    ∃ t, (((i.Install env1 cl1).2.1).Install env2 cl2).1 = (i.Install env1 cl1).1 ++ t := by
  obtain ⟨h1, -⟩ := install_errors_extend i env1 cl1
  obtain ⟨-, t, ht⟩ := install_errors_extend ((i.Install env1 cl1).2.1) env2 cl2
  rw [← h1] at ht
  exact ⟨h1, t, ht⟩

end DecideRepo
